import Mathlib

/-!
Verification of the retry-orchestrator core of the `DeveloperAgent` and
`SlicerGemini` Slicer modules (files `DeveloperAgent.py` and `SlicerGemini.py`).

The development shallowly embeds the pure decision logic of the two modules:

* the generation-response post-processing of `call_ai` (fence stripping,
  leading-comment dropping, short-response fallback),
* the three orchestration loops `createNewModule`, `modifyExistingModule`
  and `createSimpleScript` (attempt counting, error-history threading,
  rollback of the modified module file),
* the execution probes `executeScriptInSlicer` (both variants) and
  `reload_and_capture`,
* the file-writing helper `write_code`,
* the request dispatch of `processRequest`.

External effects (the network call to the model backend, loading a module in
the host, raised exceptions and the text they carry) are modelled as oracle
parameters: a function from the attempt index to the outcome the host/backend
produced on that attempt.  Strings are modelled at character level via
`String.data`; Python text operations (`startswith`, `in`, `strip`, `lower`,
`split`, `rfind`) are re-implemented below on `List Char` so they are
executable and provable.
-/

/-- Character-list prefix test, model of Python `str.startswith` checks. -/
def isChPrefix : List Char → List Char → Bool
  | [], _ => true
  | _ :: _, [] => false
  | a :: as, b :: bs => (a == b) && isChPrefix as bs

/-- Substring containment on character lists, model of Python `in`. -/
def listSub (pat : List Char) : List Char → Bool
  | [] => pat.isEmpty
  | c :: rest => isChPrefix pat (c :: rest) || listSub pat rest

/-- Model of Python `s.startswith(p)`. -/
def pyStartsWith (s p : String) : Bool := isChPrefix p.data s.data

/-- Model of Python `p in s` (substring containment). -/
def pyIn (p s : String) : Bool := listSub p.data s.data

/-- Characters stripped by Python `str.strip()` with no argument. -/
def pyIsSpace (c : Char) : Bool :=
  c == ' ' || c == '\t' || c == '\n' || c == '\r' || c == '\x0b' || c == '\x0c'

/-- Model of Python `str.strip()`. -/
def pyStrip (s : String) : String :=
  ⟨((s.data.dropWhile pyIsSpace).reverse.dropWhile pyIsSpace).reverse⟩

/-- ASCII lowering of one character, model of Python `str.lower` per character. -/
def pyLowerChar (c : Char) : Char :=
  if 'A' ≤ c && c ≤ 'Z' then Char.ofNat (c.toNat + 32) else c

/-- Model of Python `str.lower()`. -/
def pyLower (s : String) : String := ⟨s.data.map pyLowerChar⟩

/-- Model of Python `s.split(sep)` for a single-character separator. -/
def splitLines (sep : Char) : List Char → List (List Char)
  | [] => [[]]
  | c :: rest =>
    let r := splitLines sep rest
    if c == sep then [] :: r
    else
      match r with
      | [] => [[c]]
      | l :: ls => (c :: l) :: ls

/-- Model of Python `sep.join(lines)` for a single-character separator. -/
def joinLines (sep : Char) : List (List Char) → List Char
  | [] => []
  | [l] => l
  | l :: ls => l ++ sep :: joinLines sep ls

/-- All occurrence positions of `pat` inside `l`. -/
def occPositions (pat l : List Char) : List Nat :=
  (List.range (l.length + 1)).filter (fun i => isChPrefix pat (l.drop i))

/-- Position of the last occurrence of `pat` in `l`, model of Python `rfind`
(`none` models the `-1` result). -/
def lastOcc (pat l : List Char) : Option Nat := (occPositions pat l).getLast?

/-- Model of the Python slice `code[:code.rfind(pat)]`: cut at the last
occurrence of `pat`; when `rfind` yields `-1` the slice `[:-1]` drops the
last character. -/
def cutAtLastOcc (code : String) (pat : String) : String :=
  match lastOcc pat.data code.data with
  | some i => ⟨code.data.take i⟩
  | none => ⟨code.data.take (code.data.length - 1)⟩

/-- `[a, a+1, ..., a+n-1]`, used to index the attempts of a run. -/
def listRangeFrom (a : Nat) : Nat → List Nat
  | 0 => []
  | n + 1 => a :: listRangeFrom (a + 1) n

theorem isChPrefix_refl : ∀ l : List Char, isChPrefix l l = true := by
  intro l
  induction l with
  | nil => rfl
  | cons a as ih => simp [isChPrefix, ih]

theorem isChPrefix_append : ∀ l m : List Char, isChPrefix l (l ++ m) = true := by
  intro l m
  induction l with
  | nil => rfl
  | cons a as ih => simp [isChPrefix, ih]

theorem isChPrefix_trans :
    ∀ l₁ l₂ l₃ : List Char, isChPrefix l₁ l₂ = true → isChPrefix l₂ l₃ = true →
      isChPrefix l₁ l₃ = true := by
  intro l₁
  induction l₁ with
  | nil => intro l₂ l₃ _ _; rfl
  | cons a as ih =>
    intro l₂ l₃ h12 h23
    cases l₂ with
    | nil => simp [isChPrefix] at h12
    | cons b bs =>
      cases l₃ with
      | nil => simp [isChPrefix] at h23
      | cons c cs =>
        simp [isChPrefix] at h12 h23 ⊢
        obtain ⟨hab, has⟩ := h12
        obtain ⟨hbc, hbs⟩ := h23
        exact ⟨hab.trans hbc, ih bs cs has hbs⟩

theorem strData_append (s t : String) : (s ++ t).data = s.data ++ t.data := by
  cases s with
  | mk d =>
    cases t with
    | mk e => rfl

/-!
Section: Generation Client Adapter: response post-processing

`call_ai` in both `DeveloperAgent.py` (lines 879-910) and `SlicerGemini.py`
(lines 824-854) post-processes the raw backend response text identically:
strip, remove a markdown code fence, drop leading explanatory comment lines,
and fall back to the supplied `code_context` when the cleaned result is empty
or shorter than 50 characters.
-/

/-- Trigger words of the leading-explanation-comment filter
(`DeveloperAgent.py` line 896). -/
def explWords : List String := ["here", "this", "implementation", "solution"]

/-- Model of `code_lines[0].strip().startswith('#') and any(word in
code_lines[0].lower() for word in [...])` (`DeveloperAgent.py` line 896). -/
def isExplComment (line : String) : Bool :=
  pyStartsWith (pyStrip line) "#" && explWords.any (fun w => pyIn w (pyLower line))

/-- The `while code_lines and ... : code_lines.pop(0)` loop
(`DeveloperAgent.py` lines 895-897). -/
def dropLeadingExpl : List String → List String
  | [] => []
  | l :: ls => if isExplComment l then dropLeadingExpl ls else l :: ls

/-- Cleaning pipeline of `call_ai` applied to the raw response content
(`DeveloperAgent.py` lines 879-899): strip, remove a leading ```python or
generic ``` fence together with everything after the last closing ```, drop
leading explanatory comment lines, and strip again. -/
def cleanResponse (raw : String) : String :=
  let generated_code := pyStrip raw
  let code :=
    if pyStartsWith generated_code "```python" then
      pyStrip (cutAtLastOcc ⟨generated_code.data.drop 9⟩ "```")
    else if pyStartsWith generated_code "```" then
      pyStrip (cutAtLastOcc ⟨generated_code.data.drop 3⟩ "```")
    else generated_code
  let code_lines := (splitLines '\n' code.data).map (fun l => (⟨l⟩ : String))
  let final_lines := dropLeadingExpl code_lines
  pyStrip ⟨joinLines '\n' (final_lines.map String.data)⟩

/-- Result of `call_ai` on a successful backend response: the cleaned code,
or the supplied `code_context` verbatim when the cleaned code is empty or
shorter than 50 characters (`DeveloperAgent.py` lines 899-910,
`SlicerGemini.py` lines 843-854). -/
def call_ai_post (raw code_context : String) : String :=
  let final_code := cleanResponse raw
  if final_code = "" ∨ (pyStrip final_code).data.length < 50 then code_context
  else final_code

/-!
Section: Retry orchestrator loops

The three request-handling loops are embedded with the backend and the host
as oracles indexed by the attempt number:

* `gen : Nat → Option String` — the outcome of `call_ai` on that attempt.
  For `DeveloperAgent.py`, `none` models the exception path of `call_ai`
  (rate limit, authentication or any other API error, lines 912-946), all of
  which `return None`; `some code` is the returned (possibly fallen-back)
  code text.
* `test : Nat → Option ε` — `none` when the write/register/load/select/test
  sequence of the attempt raised no exception, `some err` carrying the text
  of the exception and its traceback otherwise.
* `reload : Nat → Bool × String` — the `reload_and_capture` outcome of the
  attempt for `modifyExistingModule`.

File writes inside the loops are modelled as succeeding (`write_code`
swallows write errors; that behaviour is analysed separately below).
-/

/-- Outcome of one orchestration loop run: terminal success flag, number of
`call_ai` invocations, and the `error_history` string passed into each
`call_ai` invocation, in order. -/
structure GenLoopResult where
  success : Bool
  genCalls : Nat
  histories : List String
deriving DecidableEq, Repr

/-- Failure message returned by the `DeveloperAgent.py` loops when `call_ai`
yields `None` (lines 305, 367, 418). -/
def daApiFailMsg : String :=
  "AI API call failed. Check the conversation log for details. This may be due to rate limits, invalid API key, or network issues."

/-- The `error_msg` format of `createNewModule` on a failed attempt
(`DeveloperAgent.py` line 349, also `SlicerGemini.py` line 204): the
0-based `attempt` is printed 1-based; `e` is `str(e)` and `tb` the formatted
traceback.  Note the enclosing loop ASSIGNS this to `error_history`
(overwrite), it does not append. -/
def mkModuleErrMsg (attempt : Nat) (e tb : String) : String :=
  "Error on attempt " ++ toString (attempt + 1) ++ ":\n" ++ e ++ "\n" ++ tb

/-- Exception data of a failed script attempt: exception type name, message,
formatted traceback. -/
structure ScriptErr where
  etype : String
  emsg : String
  tb : String
deriving DecidableEq, Repr

/-- The `formatted_error` block of `createSimpleScript`
(`DeveloperAgent.py` lines 497-514); `code` is the generated code of the
failing attempt.  The enclosing loop ASSIGNS this to `error_history`
(line 515, overwrite), it does not append. -/
def mkScriptErrMsg (attempt : Nat) (code : String) (e : ScriptErr) : String :=
  "\nATTEMPT " ++ toString (attempt + 1) ++ " FAILED:\nError Type: " ++ e.etype
    ++ "\nError Message: " ++ e.emsg
    ++ "\n\nGenerated Code That Failed:\n" ++ code
    ++ "\n\nFull Traceback:\n" ++ e.tb
    ++ "\n\nDEBUGGING GUIDANCE:\n- Analyze the error message carefully to understand what went wrong\n- If Python suggests an alternative (e.g., \"Did you mean: X?\"), use that suggestion\n- Search the Script Repository (https://slicer.readthedocs.io/en/latest/developer_guide/script_repository.html) for working examples of similar functionality\n- If the same error occurs after multiple attempts, try a fundamentally different approach\n- Consider using simpler, higher-level helper functions instead of low-level APIs\n"

/-- Common skeleton of the `for attempt in range(max_debug_attempts + 1)`
loops of `createNewModule` (`DeveloperAgent.py` lines 292-356) and
`createSimpleScript` (lines 400-529), parameterised by the error formatter
`fmt attempt code err` that the `except` branch assigns to `error_history`.
The first argument of the final group is the number of loop iterations still
permitted by the `range` (the `attempt = maxA` check returns first, so the
0-fuel branch is unreachable from the entry points below, mirroring the fact
that the Python loop never completes normally). -/
def daLoopGo {ε : Type} (gen : Nat → Option String) (test : Nat → Option ε)
    (fmt : Nat → String → ε → String) (maxA : Nat) :
    Nat → Nat → String → GenLoopResult
  | 0, _, _ => { success := false, genCalls := 0, histories := [] }
  | r + 1, a, hist =>
    match gen a with
    | none => { success := false, genCalls := 1, histories := [hist] }
    | some code =>
      match test a with
      | none => { success := true, genCalls := 1, histories := [hist] }
      | some err =>
        let hist2 := fmt a code err
        if a = maxA then { success := false, genCalls := 1, histories := [hist] }
        else
          let res := daLoopGo gen test fmt maxA r (a + 1) hist2
          { success := res.success, genCalls := res.genCalls + 1,
            histories := hist :: res.histories }

/-- `createNewModule` of `DeveloperAgent.py` (lines 274-356) with
`max_debug_attempts = maxA` (the configured debug-iteration count,
line 288). -/
def daCreateNewModule (gen : Nat → Option String)
    (test : Nat → Option (String × String)) (maxA : Nat) : GenLoopResult :=
  daLoopGo gen test (fun a _code err => mkModuleErrMsg a err.1 err.2) maxA (maxA + 1) 0 ""

/-- `createSimpleScript` of `DeveloperAgent.py` (lines 378-529) with
`max_debug_attempts = maxA` (line 396). -/
def daCreateSimpleScript (gen : Nat → Option String)
    (test : Nat → Option ScriptErr) (maxA : Nat) : GenLoopResult :=
  daLoopGo gen test (fun a code err => mkScriptErrMsg a code err) maxA (maxA + 1) 0 ""

/-- Outcome of a `modifyExistingModule` run: terminal success flag, number of
`call_ai` invocations, number of `reload_and_capture` invocations, the final
on-disk content of the target module file, the `errorHistory` passed into
each `call_ai` invocation, and the returned error text. -/
structure ModifyResult where
  success : Bool
  genCalls : Nat
  reloadCalls : Nat
  fileContent : String
  histories : List String
  error : String
deriving DecidableEq, Repr

/-- The block appended to `errorHistory` after a failed reload
(`DeveloperAgent.py` line 372, `SlicerGemini.py` line 228). -/
def modifyErrBlock (attempt : Nat) (err : String) : String :=
  "\n--- Attempt " ++ toString (attempt + 1) ++ " Error ---\n" ++ err

/-- `modifyExistingModule` of `DeveloperAgent.py` (lines 358-376): the
`for attempt in range(maxAttempts)` loop.  The 0-fuel branch is the loop
running out of iterations: restore `initialCode`, best-effort reload, report
failure (lines 374-376). -/
def daModifyGo (gen : Nat → Option String) (reload : Nat → Bool × String)
    (initialCode : String) :
    Nat → Nat → String → String → ModifyResult
  | 0, _, hist, _ =>
    { success := false, genCalls := 0, reloadCalls := 1,
      fileContent := initialCode, histories := [], error := hist }
  | r + 1, a, hist, content =>
    match gen a with
    | none =>
      { success := false, genCalls := 1, reloadCalls := 0,
        fileContent := content, histories := [hist], error := daApiFailMsg }
    | some newCode =>
      let rr := reload a
      if rr.1 then
        { success := true, genCalls := 1, reloadCalls := 1,
          fileContent := newCode, histories := [hist], error := "" }
      else
        let hist2 := hist ++ modifyErrBlock a rr.2
        let res := daModifyGo gen reload initialCode r (a + 1) hist2 newCode
        { success := res.success, genCalls := res.genCalls + 1,
          reloadCalls := res.reloadCalls + 1, fileContent := res.fileContent,
          histories := hist :: res.histories, error := res.error }

/-- Entry point of `modifyExistingModule` (`DeveloperAgent.py` lines
358-364): `initialCode` is the snapshot read before the loop, the file
content at entry, and `maxAttempts = self.getDebugIterations()`. -/
def daModifyExistingModule (gen : Nat → Option String)
    (reload : Nat → Bool × String) (initialCode : String) (maxAttempts : Nat) :
    ModifyResult :=
  daModifyGo gen reload initialCode maxAttempts 0 "" initialCode

/-- `modifyExistingModule` of `SlicerGemini.py` (lines 213-232).  The
difference from `DeveloperAgent.py`: a failed `call_ai` (`not newCode or
newCode.startswith("# Gemini API call failed")`) appends to `errorHistory`
and `continue`s instead of returning, and `maxAttempts` is hardcoded to 3. -/
def sgModifyGo (gen : Nat → Option String) (reload : Nat → Bool × String)
    (initialCode : String) :
    Nat → Nat → String → String → ModifyResult
  | 0, _, hist, _ =>
    { success := false, genCalls := 0, reloadCalls := 1,
      fileContent := initialCode, histories := [], error := hist }
  | r + 1, a, hist, content =>
    match gen a with
    | none =>
      let hist2 := hist ++ ("\nGemini API call failed on attempt " ++ toString (a + 1) ++ ".")
      let res := sgModifyGo gen reload initialCode r (a + 1) hist2 content
      { success := res.success, genCalls := res.genCalls + 1,
        reloadCalls := res.reloadCalls, fileContent := res.fileContent,
        histories := hist :: res.histories, error := res.error }
    | some newCode =>
      let rr := reload a
      if rr.1 then
        { success := true, genCalls := 1, reloadCalls := 1,
          fileContent := newCode, histories := [hist], error := "" }
      else
        let hist2 := hist ++ modifyErrBlock a rr.2
        let res := sgModifyGo gen reload initialCode r (a + 1) hist2 newCode
        { success := res.success, genCalls := res.genCalls + 1,
          reloadCalls := res.reloadCalls + 1, fileContent := res.fileContent,
          histories := hist :: res.histories, error := res.error }

/-- Entry point of `SlicerGemini.modifyExistingModule` with its hardcoded
`maxAttempts = 3` (line 218). -/
def sgModifyExistingModule (gen : Nat → Option String)
    (reload : Nat → Bool × String) (initialCode : String) : ModifyResult :=
  sgModifyGo gen reload initialCode 3 0 "" initialCode

/-!
Section: SlicerGemini createNewModule

`SlicerGemini.call_ai` differs from the `DeveloperAgent` version in its
exception path: any API error makes it `return code_context` (line 859)
instead of `None`.  `sgCreateNewModuleGo` therefore threads the
`current_code` context and models the backend with
`genRaw : Nat → Option String` where `none` is the exception path (the call
evaluates to the passed context) and `some s` a returned response.
-/

/-- The sentinel checked by the `SlicerGemini` loops
(lines 159, 221, 273). -/
def sgGeminiFailMarker : String := "# Gemini API call failed"

/-- `get_module_boilerplate` of `SlicerGemini.py` (lines 728-751). -/
def sg_module_boilerplate (moduleName : String) : String :=
  "\nimport slicer\nfrom slicer.ScriptedLoadableModule import *\nimport logging\n\nclass "
    ++ moduleName
    ++ "(ScriptedLoadableModule):\n    def __init__(self, parent):\n        ScriptedLoadableModule.__init__(self, parent)\n        self.parent.title = \""
    ++ moduleName
    ++ "\"\n        self.parent.categories = [\"Examples\"]\n        self.parent.contributors = [\"SlicerGemini (AI)\"]\n        self.parent.helpText = \"This module was created by SlicerGemini.\"\n\nclass "
    ++ moduleName
    ++ "Widget(ScriptedLoadableModuleWidget):\n    def setup(self):\n        ScriptedLoadableModuleWidget.setup(self)\n        pass\n\nclass "
    ++ moduleName
    ++ "Logic(ScriptedLoadableModuleLogic):\n    def __init__(self):\n        ScriptedLoadableModuleLogic.__init__(self)\n    pass\n"

/-- `createNewModule` of `SlicerGemini.py` (lines 129-211).  `cur` is the
`current_code` variable (`none` before the first write); `call_ai` receives
`current_code or boilerplate` as context and, on a backend exception,
returns that context (line 859). -/
def sgCreateNewModuleGo (genRaw : Nat → Option String)
    (test : Nat → Option (String × String)) (boilerplate : String) (maxA : Nat) :
    Nat → Nat → String → Option String → GenLoopResult
  | 0, _, _, _ => { success := false, genCalls := 0, histories := [] }
  | r + 1, a, hist, cur =>
    let context := cur.getD boilerplate
    let newCode := (genRaw a).getD context
    if newCode = "" ∨ pyStartsWith newCode sgGeminiFailMarker = true then
      { success := false, genCalls := 1, histories := [hist] }
    else
      match test a with
      | none => { success := true, genCalls := 1, histories := [hist] }
      | some err =>
        let hist2 := mkModuleErrMsg a err.1 err.2
        if a = maxA then { success := false, genCalls := 1, histories := [hist] }
        else
          let res := sgCreateNewModuleGo genRaw test boilerplate maxA r (a + 1) hist2 (some newCode)
          { success := res.success, genCalls := res.genCalls + 1,
            histories := hist :: res.histories }

/-- Entry point of `SlicerGemini.createNewModule` with its hardcoded
`max_debug_attempts = 2` (line 143), i.e. up to 3 loop iterations. -/
def sgCreateNewModule (genRaw : Nat → Option String)
    (test : Nat → Option (String × String)) (boilerplate : String) : GenLoopResult :=
  sgCreateNewModuleGo genRaw test boilerplate 2 3 0 "" none

/-!
Section: Execution probes and module reload
-/

/-- `executeScriptInSlicer` of `DeveloperAgent.py` (lines 569-624).
`exc = some (emsg, tb)` models `exec(script_code, ...)` raising with message
`emsg` and formatted traceback `tb`; `none` models a clean execution.
`printedOutput` is whatever the script wrote to standard output/error: this
implementation does not capture or inspect it, which the unused parameter
makes explicit. -/
def executeScriptInSlicer_DA (exc : Option (String × String))
    (printedOutput : String) : Bool × String :=
  match exc, printedOutput with
  | none, _ => (true, "")
  | some (emsg, tb), _ =>
    (false, "Script execution failed: " ++ emsg ++ "\n\nFull traceback:\n" ++ tb)

/-- `executeScriptInSlicer` of `SlicerGemini.py` (lines 412-536).  When
`executeString` raises (`exc = some e`), the `except` block returns
`(False, "Direct execution exception: ...")` before reaching the
output-scanning code, which sits inside that same `except` block after an
unconditional `return` and is therefore unreachable.  When `executeString`
does not raise, the `try` block completes, the `finally` restores the
streams, and control falls off the end of the function: Python returns
`None`, modelled as `none`.  `outText`/`errText` are the captured streams
(never consulted on any reachable path). -/
def executeScriptInSlicer_SG (exc : Option String) (outText errText : String) :
    Option (Bool × String) :=
  match exc, outText, errText with
  | some e, _, _ => some (false, "Direct execution exception: " ++ e)
  | none, _, _ => none

/-- The `error_indicators` list of `SlicerGemini.executeScriptInSlicer`
(lines 477-502), part of the unreachable scanning code. -/
def sgErrorIndicators : List String :=
  ["script execution failed", "execution failed",
   "traceback (most recent call last)", "traceback", "error:",
   "attributeerror", "typeerror", "valueerror", "runtimeerror", "nameerror",
   "keyerror", "indexerror", "importerror", "modulenotfounderror",
   "has no attribute", "no attribute", "unexpected keyword argument",
   "got an unexpected keyword argument", "download failed", "load failed",
   "no such file", "failed:", "exception", "argument 1:"]

/-- The case-insensitive error-signature scan of
`SlicerGemini.executeScriptInSlicer` (lines 504-512): lower the combined
captured output and look for any indicator substring. -/
def sgDetectsError (fullOutput : String) : Bool :=
  sgErrorIndicators.any (fun pat => pyIn pat (pyLower fullOutput))

/-- How `createSimpleScript` of `SlicerGemini.py` consumes the probe result
(lines 316-319): `exec_success, exec_error = self.executeScriptInSlicer(...)`
unpacks the returned pair; unpacking `None` raises a `TypeError` which the
enclosing `except` turns into a failed attempt. -/
def sgScriptProbeStep (exc : Option String) (outText errText : String) :
    Except String Bool :=
  match executeScriptInSlicer_SG exc outText errText with
  | none => Except.error "cannot unpack non-iterable NoneType object"
  | some (ok, err) =>
    if ok then Except.ok true
    else Except.error ("Script runtime execution failed: " ++ err)

/-- `reload_and_capture` (`DeveloperAgent.py` lines 966-978,
`SlicerGemini.py` lines 879-891): `capturedOutput` is the text the reload
wrote to the redirected standard output/error before completing or raising;
`exc = some tb` models `slicer.util.reloadScriptedModule` raising with
formatted traceback `tb`.  Success requires completing without exception
and the capture not containing `"Traceback"`. -/
def reload_and_capture (capturedOutput : String) (exc : Option String) :
    Bool × String :=
  match exc with
  | none =>
    (if pyIn "Traceback" capturedOutput then false else true, capturedOutput)
  | some tb =>
    (false, capturedOutput ++ "\n--- EXCEPTION DURING RELOAD ---\n" ++ tb)

/-!
Section: Artifact store: write_code

`write_code` is identical in `DeveloperAgent.py` (lines 769-773) and
`SlicerGemini.py` (lines 759-763):

    def write_code(self, file_path, new_code):
        try:
            with open(file_path, 'w', encoding='utf-8') as f:
                f.write(new_code)
        except: pass

The file system is modelled as a set of existing directories plus an
association list of file contents.  `open(path, 'w')` fails when the parent
directory of `path` does not exist (it also fails on permission errors and
a full disk; the missing-parent case suffices to exercise the `except`
path).  The bare `except: pass` means the function returns nothing and
leaves no trace of the failure, which the model mirrors: the result type
carries no error channel. -/

structure FileSys where
  dirs : List String
  files : List (String × String)
deriving DecidableEq, Repr

/-- The directory part of a path: everything before the last `/`. -/
def parentDir (p : String) : String :=
  ⟨((p.data.reverse.dropWhile (fun c => !(c == '/'))).drop 1).reverse⟩

/-- Overwrite-or-create in an association list of files. -/
def setFile : List (String × String) → String → String → List (String × String)
  | [], p, t => [(p, t)]
  | (q, u) :: rest, p, t =>
    if q = p then (p, t) :: rest else (q, u) :: setFile rest p t

/-- Model of `open(file_path, 'w')` followed by `f.write(new_code)`:
a full-file overwrite that fails (raises) when the parent directory does
not exist. -/
def pyOpenWrite (fs : FileSys) (path text : String) : Option FileSys :=
  if fs.dirs.contains (parentDir path) then
    some ⟨fs.dirs, setFile fs.files path text⟩
  else none

/-- `write_code`: the `try`/bare-`except: pass` wrapper around the write.
A failed write returns the file system unchanged and signals nothing. -/
def write_code (fs : FileSys) (path text : String) : FileSys :=
  match pyOpenWrite fs path text with
  | some fs2 => fs2
  | none => fs

/-!
Section: Request dispatch

`processRequest` (`DeveloperAgent.py` lines 198-217, `SlicerGemini.py`
lines 53-72) initialises the backend client and then dispatches on the
truthiness of its target arguments, in order `newModuleName`,
`targetModuleName`, `scriptName`.
-/

inductive RequestKind
  | NewModule
  | ModifyModule
  | NewScript
deriving DecidableEq, Repr

inductive DispatchOutcome
  | routed (k : RequestKind)
  | failResult (error : String)
deriving DecidableEq, Repr

/-- Python truthiness of an optional string argument (default `None`, and
the UI passes stripped line-edit text, possibly empty). -/
def optTruthy : Option String → Bool
  | none => false
  | some s => !(s == "")

/-- The failure message of the final `return` (`DeveloperAgent.py`
line 217). -/
def noTargetMsg : String :=
  "No target module, new module name, or script name specified."

/-- The dispatch of `processRequest`: `clientOk = false` models the OpenAI
client import/initialisation failing (lines 199-209). -/
def processRequest_dispatch (clientOk : Bool)
    (newModuleName targetModuleName scriptName : Option String) :
    DispatchOutcome :=
  if !clientOk then .failResult "Failed to initialize GitHub Models client"
  else if optTruthy newModuleName then .routed .NewModule
  else if optTruthy targetModuleName then .routed .ModifyModule
  else if optTruthy scriptName then .routed .NewScript
  else .failResult noTargetMsg

/-- Number of `call_ai` invocations a `processRequest` call performs, given
the number each branch would perform (`gNew`, `gMod`, `gScr`): a dispatch
that reaches no branch performs none. -/
def processRequest_genCalls (clientOk : Bool)
    (n t s : Option String) (gNew gMod gScr : Nat) : Nat :=
  match processRequest_dispatch clientOk n t s with
  | .routed .NewModule => gNew
  | .routed .ModifyModule => gMod
  | .routed .NewScript => gScr
  | .failResult _ => 0

/-!
Section: Helper lemmas about the loops
-/

theorem daLoopGo_genCalls_le {ε : Type} (gen : Nat → Option String)
    (test : Nat → Option ε) (fmt : Nat → String → ε → String) (maxA : Nat) :
    ∀ r a hist, (daLoopGo gen test fmt maxA r a hist).genCalls ≤ r := by
  intro r
  induction r with
  | zero => intro a hist; simp [daLoopGo]
  | succ r ih =>
    intro a hist
    simp only [daLoopGo]
    cases gen a with
    | none => simp
    | some code =>
      cases test a with
      | none => simp
      | some err =>
        by_cases h : a = maxA
        · simp [h]
        · simp only [h, if_false]
          exact Nat.succ_le_succ (ih (a + 1) (fmt a code err))

theorem daLoopGo_genCalls_pos {ε : Type} (gen : Nat → Option String)
    (test : Nat → Option ε) (fmt : Nat → String → ε → String) (maxA : Nat) :
    ∀ r a hist, 1 ≤ (daLoopGo gen test fmt maxA (r + 1) a hist).genCalls := by
  intro r a hist
  simp only [daLoopGo]
  cases gen a with
  | none => simp
  | some code =>
    cases test a with
    | none => simp
    | some err =>
      by_cases h : a = maxA
      · simp [h]
      · simp only [h, if_false]
        exact Nat.succ_le_succ (Nat.zero_le _)

theorem daModifyGo_genCalls_le (gen : Nat → Option String)
    (reload : Nat → Bool × String) (initialCode : String) :
    ∀ r a hist content,
      (daModifyGo gen reload initialCode r a hist content).genCalls ≤ r := by
  intro r
  induction r with
  | zero => intro a hist content; simp [daModifyGo]
  | succ r ih =>
    intro a hist content
    simp only [daModifyGo]
    cases gen a with
    | none => simp
    | some newCode =>
      by_cases h : (reload a).1
      · simp [h]
      · simp only [h, if_false]
        exact Nat.succ_le_succ (ih (a + 1) _ newCode)

theorem daModifyGo_allfail (c rerr : Nat → String) (initialCode : String) :
    ∀ r a hist content,
      (daModifyGo (fun k => some (c k)) (fun k => (false, rerr k)) initialCode
          r a hist content).fileContent = initialCode
      ∧ (daModifyGo (fun k => some (c k)) (fun k => (false, rerr k)) initialCode
          r a hist content).success = false
      ∧ (daModifyGo (fun k => some (c k)) (fun k => (false, rerr k)) initialCode
          r a hist content).reloadCalls = r + 1 := by
  intro r
  induction r with
  | zero => intro a hist content; simp [daModifyGo]
  | succ r ih =>
    intro a hist content
    simp only [daModifyGo]
    obtain ⟨h1, h2, h3⟩ := ih (a + 1) (hist ++ modifyErrBlock a (rerr a)) (c a)
    simp [h1, h2, h3]

theorem sgModifyGo_allfail (c rerr : Nat → String) (initialCode : String) :
    ∀ r a hist content,
      (sgModifyGo (fun k => some (c k)) (fun k => (false, rerr k)) initialCode
          r a hist content).fileContent = initialCode
      ∧ (sgModifyGo (fun k => some (c k)) (fun k => (false, rerr k)) initialCode
          r a hist content).success = false
      ∧ (sgModifyGo (fun k => some (c k)) (fun k => (false, rerr k)) initialCode
          r a hist content).reloadCalls = r + 1 := by
  intro r
  induction r with
  | zero => intro a hist content; simp [sgModifyGo]
  | succ r ih =>
    intro a hist content
    simp only [sgModifyGo]
    obtain ⟨h1, h2, h3⟩ := ih (a + 1) (hist ++ modifyErrBlock a (rerr a)) (c a)
    simp [h1, h2, h3]

theorem daLoopGo_allfail_histories {ε : Type} (c : Nat → String)
    (er : Nat → ε) (fmt : Nat → String → ε → String) (maxA : Nat) :
    ∀ r a hist, a + r = maxA →
      (daLoopGo (fun k => some (c k)) (fun k => some (er k)) fmt maxA
          (r + 1) a hist).histories
        = hist :: (listRangeFrom a r).map (fun k => fmt k (c k) (er k)) := by
  intro r
  induction r with
  | zero =>
    intro a hist h
    have ha : a = maxA := by omega
    subst ha
    simp [daLoopGo, listRangeFrom]
  | succ r ih =>
    intro a hist h
    have ha : ¬ a = maxA := by omega
    rw [daLoopGo]
    simp only [ha, if_false]
    rw [ih (a + 1) (fmt a (c a) (er a)) (by omega)]
    simp [listRangeFrom]

/-- `chainFrom prev l` holds when every string in `l` extends (has as a
prefix) its predecessor, starting from `prev`: the append-only property of
an error-history trace. -/
def chainFrom (prev : String) : List String → Bool
  | [] => true
  | h :: rest => isChPrefix prev.data h.data && chainFrom h rest

theorem chainFrom_mono (p q : String) (l : List String)
    (hpq : isChPrefix p.data q.data = true) (hq : chainFrom q l = true) :
    chainFrom p l = true := by
  cases l with
  | nil => rfl
  | cons h t =>
    simp only [chainFrom, Bool.and_eq_true] at hq ⊢
    exact ⟨isChPrefix_trans p.data q.data h.data hpq hq.1, hq.2⟩

theorem isChPrefix_strApp (s t : String) :
    isChPrefix s.data (s ++ t).data = true := by
  rw [strData_append]
  exact isChPrefix_append s.data t.data

theorem daModifyGo_chain (gen : Nat → Option String)
    (reload : Nat → Bool × String) (initialCode : String) :
    ∀ r a hist content,
      chainFrom hist ((daModifyGo gen reload initialCode r a hist
        content).histories) = true := by
  intro r
  induction r with
  | zero => intro a hist content; simp [daModifyGo, chainFrom]
  | succ r ih =>
    intro a hist content
    simp only [daModifyGo]
    cases gen a with
    | none => simp [chainFrom, isChPrefix_refl]
    | some newCode =>
      by_cases h : (reload a).1
      · simp [h, chainFrom, isChPrefix_refl]
      · simp only [h, if_false, chainFrom, Bool.and_eq_true]
        refine ⟨isChPrefix_refl hist.data, ?_⟩
        exact chainFrom_mono hist (hist ++ modifyErrBlock a (reload a).2) _
          (isChPrefix_strApp hist (modifyErrBlock a (reload a).2))
          (ih (a + 1) (hist ++ modifyErrBlock a (reload a).2) newCode)

theorem lookup_setFile :
    ∀ (l : List (String × String)) (p t : String),
      List.lookup p (setFile l p t) = some t := by
  intro l p t
  induction l with
  | nil => simp [setFile, List.lookup]
  | cons qu rest ih =>
    obtain ⟨q, u⟩ := qu
    by_cases h : q = p
    · simp [setFile, h, List.lookup]
    · simp only [setFile, h, if_false, List.lookup]
      have : (p == q) = false := by
        simp [Ne.symm h]
      simp [this, ih]

/-!
Section: Claims
-/

/-- C1 counterexample: a ModifyModule request with attempt budget 0
(`maxAttempts = getDebugIterations() = 0`) performs 0 generation calls, not
the `N + 1 = 1` the claim asserts: `modifyExistingModule` iterates
`range(maxAttempts)` (`DeveloperAgent.py` line 364), so attempt 0 is not
performed when the budget is 0. -/
theorem claim1_counterexample :
    (daModifyExistingModule (fun _ => some "import slicer")
      (fun _ => (false, "reload failed")) "ORIGINAL CODE" 0).genCalls ≠ 0 + 1 := by
  decide

/-- C1 amended: for `createNewModule` and `createSimpleScript` the budget-`N`
loop performs between 1 and `N + 1` generation calls (the first generation is
always attempted, even for `N = 0`); `modifyExistingModule` performs at most
`N` generation calls, and none at all when `N = 0`. -/
theorem claim1_amended :
    ∀ (gen : Nat → Option String) (testM : Nat → Option (String × String))
      (testS : Nat → Option ScriptErr) (reload : Nat → Bool × String)
      (initialCode : String) (maxA : Nat),
      (1 ≤ (daCreateNewModule gen testM maxA).genCalls
        ∧ (daCreateNewModule gen testM maxA).genCalls ≤ maxA + 1)
      ∧ (1 ≤ (daCreateSimpleScript gen testS maxA).genCalls
        ∧ (daCreateSimpleScript gen testS maxA).genCalls ≤ maxA + 1)
      ∧ (daModifyExistingModule gen reload initialCode maxA).genCalls ≤ maxA
      ∧ (daModifyExistingModule gen reload initialCode 0).genCalls = 0 := by
  intro gen tM tS rl init maxA
  refine ⟨⟨?_, ?_⟩, ⟨?_, ?_⟩, ?_, ?_⟩
  · exact daLoopGo_genCalls_pos gen tM _ maxA maxA 0 ""
  · exact daLoopGo_genCalls_le gen tM _ maxA (maxA + 1) 0 ""
  · exact daLoopGo_genCalls_pos gen tS _ maxA maxA 0 ""
  · exact daLoopGo_genCalls_le gen tS _ maxA (maxA + 1) 0 ""
  · exact daModifyGo_genCalls_le gen rl init maxA 0 "" init
  · rfl

/-- C2: for a ModifyModule request in which the backend always returns code
and every reload fails, the final on-disk content of the module file equals
the pre-request snapshot `initialCode`, the outcome is failure, and the
module is re-probed once more after the restore (one reload per attempt plus
the best-effort rollback reload, whose result is discarded).  Both the
`DeveloperAgent.py` loop (any budget) and the `SlicerGemini.py` loop
(hardcoded budget 3) restore the snapshot. -/
theorem claim2_modify_rollback :
    ∀ (c rerr : Nat → String) (initialCode : String) (maxAttempts : Nat),
      ((daModifyExistingModule (fun k => some (c k)) (fun k => (false, rerr k))
          initialCode maxAttempts).fileContent = initialCode
        ∧ (daModifyExistingModule (fun k => some (c k)) (fun k => (false, rerr k))
          initialCode maxAttempts).success = false
        ∧ (daModifyExistingModule (fun k => some (c k)) (fun k => (false, rerr k))
          initialCode maxAttempts).reloadCalls = maxAttempts + 1)
      ∧ ((sgModifyExistingModule (fun k => some (c k)) (fun k => (false, rerr k))
          initialCode).fileContent = initialCode
        ∧ (sgModifyExistingModule (fun k => some (c k)) (fun k => (false, rerr k))
          initialCode).success = false
        ∧ (sgModifyExistingModule (fun k => some (c k)) (fun k => (false, rerr k))
          initialCode).reloadCalls = 4) := by
  intro c rerr init maxA
  exact ⟨daModifyGo_allfail c rerr init maxA 0 "" init,
    sgModifyGo_allfail c rerr init 3 0 "" init⟩

/-- C3 counterexample: in `SlicerGemini.py`, a backend that fails with a
rate-limit error on every call makes `call_ai` return the passed code
context (line 859), so `createNewModule` proceeds with the boilerplate as
generated code and performs 3 generation calls when loading it keeps
failing, not the single call the claim asserts. -/
theorem claim3_counterexample :
    (sgCreateNewModule (fun _ => none) (fun _ => some ("LoadErr", "TB"))
      (sg_module_boilerplate "MyModule")).genCalls = 3
    ∧ (sgCreateNewModule (fun _ => none) (fun _ => some ("LoadErr", "TB"))
      (sg_module_boilerplate "MyModule")).genCalls ≠ 1 := by
  exact ⟨by decide, by decide⟩

/-- C3 amended: in `DeveloperAgent.py` a rate-limit or authentication error
on attempt 0 makes `call_ai` return `None` and each of the three loops stop
after exactly one generation call with a failure result; in
`SlicerGemini.py` `call_ai` instead returns the supplied code context on any
backend error, so `createNewModule` keeps looping and performs one
generation call per attempt up to its full budget (3 calls). -/
theorem claim3_amended :
    ∀ (gen : Nat → Option String) (testM : Nat → Option (String × String))
      (testS : Nat → Option ScriptErr) (reload : Nat → Bool × String)
      (initialCode : String) (maxA m : Nat) (erSG : Nat → String × String)
      (bp : String),
      ((daCreateNewModule (fun k => if k = 0 then none else gen k) testM
          maxA).genCalls = 1
        ∧ (daCreateNewModule (fun k => if k = 0 then none else gen k) testM
          maxA).success = false)
      ∧ ((daCreateSimpleScript (fun k => if k = 0 then none else gen k) testS
          maxA).genCalls = 1
        ∧ (daCreateSimpleScript (fun k => if k = 0 then none else gen k) testS
          maxA).success = false)
      ∧ ((daModifyExistingModule (fun k => if k = 0 then none else gen k)
          reload initialCode (m + 1)).genCalls = 1
        ∧ (daModifyExistingModule (fun k => if k = 0 then none else gen k)
          reload initialCode (m + 1)).success = false)
      ∧ (bp ≠ "" → pyStartsWith bp sgGeminiFailMarker = false →
          (sgCreateNewModule (fun _ => none) (fun k => some (erSG k)) bp).genCalls = 3
          ∧ (sgCreateNewModule (fun _ => none) (fun k => some (erSG k)) bp).success = false) := by
  intro gen tM tS rl init maxA m erSG bp
  refine ⟨?_, ?_, ?_, ?_⟩
  · constructor
    · simp [daCreateNewModule, daLoopGo]
    · simp [daCreateNewModule, daLoopGo]
  · constructor
    · simp [daCreateSimpleScript, daLoopGo]
    · simp [daCreateSimpleScript, daLoopGo]
  · constructor
    · simp [daModifyExistingModule, daModifyGo]
    · simp [daModifyExistingModule, daModifyGo]
  · intro hbp1 hbp2
    constructor
    · simp [sgCreateNewModule, sgCreateNewModuleGo, hbp1, hbp2]
    · simp [sgCreateNewModule, sgCreateNewModuleGo, hbp1, hbp2]

/-- C3 amended witness: concrete rate-limited SlicerGemini run. -/
theorem claim3_amended_witness :
    (sgCreateNewModule (fun _ => none) (fun _ => some ("E", "T"))
      "import slicer").genCalls = 3
    ∧ (sgCreateNewModule (fun _ => none) (fun _ => some ("E", "T"))
      "import slicer").success = false :=
  (claim3_amended (fun _ => none) (fun _ => none) (fun _ => none)
    (fun _ => (false, "")) "" 0 0 (fun _ => ("E", "T"))
    "import slicer").2.2.2 (by decide) (by decide)

/-- C4 counterexample: two failing `createNewModule` attempts with distinct
errors (`alphaerr` then `betaerr`).  The error history passed into the
second generation call contains attempt 0's error, but the history passed
into the third generation call no longer does: `error_history = error_msg`
(`DeveloperAgent.py` line 351) overwrites instead of appending, so the
model never sees cumulative context there. -/
theorem claim4_counterexample :
    pyIn "alphaerr"
      ((daCreateNewModule (fun _ => some "CODE")
        (fun k => some (if k = 0 then "alphaerr" else "betaerr", "TBK"))
        2).histories.getD 1 "") = true
    ∧ pyIn "alphaerr"
      ((daCreateNewModule (fun _ => some "CODE")
        (fun k => some (if k = 0 then "alphaerr" else "betaerr", "TBK"))
        2).histories.getD 2 "") = false := by
  exact ⟨by decide, by decide⟩

/-- C4 amended: within a Request the error history starts empty, and
`modifyExistingModule` is append-only (each generation call's history
extends the previous one).  `createNewModule` and `createSimpleScript`
instead overwrite: when every attempt fails, the history passed into
generation call `k + 1` is exactly the formatted error block of attempt `k`
alone. -/
theorem claim4_amended :
    ∀ (c e tb : Nat → String) (se : Nat → ScriptErr)
      (gen : Nat → Option String) (reload : Nat → Bool × String)
      (initialCode : String) (maxA : Nat),
      (daCreateNewModule (fun k => some (c k)) (fun k => some (e k, tb k))
          maxA).histories
        = "" :: (listRangeFrom 0 maxA).map (fun k => mkModuleErrMsg k (e k) (tb k))
      ∧ (daCreateSimpleScript (fun k => some (c k)) (fun k => some (se k))
          maxA).histories
        = "" :: (listRangeFrom 0 maxA).map (fun k => mkScriptErrMsg k (c k) (se k))
      ∧ chainFrom ""
          ((daModifyExistingModule gen reload initialCode maxA).histories) = true := by
  intro c e tb se gen rl init maxA
  refine ⟨?_, ?_, ?_⟩
  · exact daLoopGo_allfail_histories c (fun k => (e k, tb k))
      (fun a _code err => mkModuleErrMsg a err.1 err.2) maxA maxA 0 "" (by omega)
  · exact daLoopGo_allfail_histories c se
      (fun a code err => mkScriptErrMsg a code err) maxA maxA 0 "" (by omega)
  · exact daModifyGo_chain gen rl init maxA 0 "" init

/-- C5: whenever the cleaned backend response (fences stripped, leading
explanatory comments dropped, stripped) is empty or shorter than 50
characters, `call_ai` returns the supplied code context verbatim
(`DeveloperAgent.py` lines 901-903, `SlicerGemini.py` lines 845-847). -/
theorem claim5_short_response_fallback :
    ∀ (raw code_context : String),
      (pyStrip (cleanResponse raw)).data.length < 50 →
      call_ai_post raw code_context = code_context := by
  intro raw ctx h
  simp only [call_ai_post]
  rw [if_pos (Or.inr h)]

/-- C5 witness: a degenerate five-character response falls back to the
context. -/
theorem claim5_witness :
    (pyStrip (cleanResponse "hello")).data.length < 50
    ∧ call_ai_post "hello" "THE CURRENT CODE CONTEXT" = "THE CURRENT CODE CONTEXT" :=
  ⟨by decide,
   claim5_short_response_fallback "hello" "THE CURRENT CODE CONTEXT" (by decide)⟩

/-- C6 counterexample: with no parent directory present, `write_code`
silently does nothing: it creates neither the directory nor the file and
returns the unchanged file system with no error indication (bare
`except: pass`, `DeveloperAgent.py` line 773, `SlicerGemini.py`
line 763), contradicting the claim that it creates parent directories and
reports write errors. -/
theorem claim6_counterexample :
    write_code ⟨[], []⟩ "Modules/MyMod/MyMod.py" "import slicer" = ⟨[], []⟩
    ∧ List.lookup "Modules/MyMod/MyMod.py"
        (write_code ⟨[], []⟩ "Modules/MyMod/MyMod.py" "import slicer").files = none := by
  exact ⟨by decide, by decide⟩

/-- C6 amended: `write_code` performs a full-file overwrite when the parent
directory already exists (the callers create directories beforehand with
`os.makedirs`), and swallows write failures: a failed write leaves the file
system unchanged and signals nothing, so the attempt continues. -/
theorem claim6_amended :
    ∀ (fs : FileSys) (path text : String),
      (fs.dirs.contains (parentDir path) = true →
        (write_code fs path text).dirs = fs.dirs
        ∧ List.lookup path (write_code fs path text).files = some text)
      ∧ (fs.dirs.contains (parentDir path) = false →
        write_code fs path text = fs) := by
  intro fs p t
  constructor
  · intro h
    unfold write_code pyOpenWrite
    rw [if_pos h]
    exact ⟨rfl, lookup_setFile fs.files p t⟩
  · intro h
    unfold write_code pyOpenWrite
    rw [if_neg (by simpa using h)]

/-- C6 amended witness: a write with the parent directory present succeeds
and overwrites; a write without it is a silent no-op. -/
theorem claim6_witness :
    (write_code ⟨["Modules/MyMod"], []⟩ "Modules/MyMod/MyMod.py"
      "import slicer").dirs = ["Modules/MyMod"]
    ∧ List.lookup "Modules/MyMod/MyMod.py"
        (write_code ⟨["Modules/MyMod"], []⟩ "Modules/MyMod/MyMod.py"
          "import slicer").files = some "import slicer"
    ∧ write_code ⟨[], []⟩ "Scripts/S.py" "x" = ⟨[], []⟩ := by
  refine ⟨?_, ?_, ?_⟩
  · exact ((claim6_amended ⟨["Modules/MyMod"], []⟩ "Modules/MyMod/MyMod.py"
      "import slicer").1 (by decide)).1
  · exact ((claim6_amended ⟨["Modules/MyMod"], []⟩ "Modules/MyMod/MyMod.py"
      "import slicer").1 (by decide)).2
  · exact (claim6_amended ⟨[], []⟩ "Scripts/S.py" "x").2 (by decide)

/-- C7 counterexample: a script run that raises no exception but prints a
line matching the error-signature list.  The `DeveloperAgent.py` probe
reports Pass (it never inspects printed output), and the `SlicerGemini.py`
probe returns no outcome at all, even though the (unreachable) signature
scan would have matched the output — so no probe scans stdout/stderr as the
claim asserts. -/
theorem claim7_counterexample :
    executeScriptInSlicer_DA none "Traceback (most recent call last): boom"
      = (true, "")
    ∧ executeScriptInSlicer_SG none "Traceback (most recent call last): boom" ""
      = none
    ∧ sgDetectsError "Traceback (most recent call last): boom" = true := by
  exact ⟨rfl, rfl, by decide⟩

/-- C7 amended: the `DeveloperAgent.py` NewScript probe detects failure
exactly from a directly raised exception and ignores captured output; the
`SlicerGemini.py` probe returns Failure on a raised exception before its
error-signature scan can run, and returns `None` (no outcome) on a clean
execution, so the scan is unreachable in both directions. -/
theorem claim7_amended :
    ∀ (printed outText errText emsg tb e : String),
      executeScriptInSlicer_DA none printed = (true, "")
      ∧ executeScriptInSlicer_DA (some (emsg, tb)) printed
        = (false, "Script execution failed: " ++ emsg
            ++ "\n\nFull traceback:\n" ++ tb)
      ∧ executeScriptInSlicer_SG none outText errText = none
      ∧ executeScriptInSlicer_SG (some e) outText errText
        = some (false, "Direct execution exception: " ++ e) := by
  intro p o er em tb e
  exact ⟨rfl, rfl, rfl, rfl⟩

/-- C8: `reload_and_capture` captures the reload's standard output/error
text and succeeds exactly when no exception was raised and the capture does
not contain "Traceback"; otherwise it reports failure carrying the captured
text (with the exception trace appended when the reload raised). -/
theorem claim8_reload_capture :
    ∀ (out : String) (exc : Option String),
      ((reload_and_capture out exc).1 = true ↔
        exc = none ∧ pyIn "Traceback" out = false)
      ∧ (reload_and_capture out none).2 = out
      ∧ ∀ tb, (reload_and_capture out (some tb)).2
          = out ++ "\n--- EXCEPTION DURING RELOAD ---\n" ++ tb := by
  intro out exc
  refine ⟨?_, rfl, fun tb => rfl⟩
  cases exc with
  | none =>
    by_cases h : pyIn "Traceback" out
    · simp [reload_and_capture, h]
    · simp [reload_and_capture, h]
  | some tb => simp [reload_and_capture]

/-- C9: when `executeString` completes without raising, SlicerGemini's
`executeScriptInSlicer` falls off the end of the function and returns
`None` (its success path sits inside the exception handler), so the tuple
unpacking in `createSimpleScript` raises and even a cleanly executing
script is recorded as a failed attempt. -/
theorem claim9_probe_returns_none :
    ∀ (outText errText : String),
      executeScriptInSlicer_SG none outText errText = none
      ∧ sgScriptProbeStep none outText errText
        = Except.error "cannot unpack non-iterable NoneType object" := by
  intro o e
  exact ⟨rfl, rfl⟩

/-- C10: `processRequest` dispatches with fixed precedence — a truthy
new-module name always wins, then the target-module name, then the script
name — and with none of the three it returns the no-target failure result
(`success = False`) without invoking any branch, hence without a single
generation call. -/
theorem claim10_dispatch :
    ∀ (n t s : Option String),
      (optTruthy n = true →
        processRequest_dispatch true n t s = .routed .NewModule)
      ∧ (optTruthy n = false → optTruthy t = true →
        processRequest_dispatch true n t s = .routed .ModifyModule)
      ∧ (optTruthy n = false → optTruthy t = false → optTruthy s = true →
        processRequest_dispatch true n t s = .routed .NewScript)
      ∧ (optTruthy n = false → optTruthy t = false → optTruthy s = false →
        processRequest_dispatch true n t s = .failResult noTargetMsg
        ∧ ∀ gNew gMod gScr,
            processRequest_genCalls true n t s gNew gMod gScr = 0) := by
  intro n t s
  refine ⟨?_, ?_, ?_, ?_⟩
  · intro h1; simp [processRequest_dispatch, h1]
  · intro h1 h2; simp [processRequest_dispatch, h1, h2]
  · intro h1 h2 h3; simp [processRequest_dispatch, h1, h2, h3]
  · intro h1 h2 h3
    refine ⟨by simp [processRequest_dispatch, h1, h2, h3], ?_⟩
    intro g1 g2 g3
    simp [processRequest_genCalls, processRequest_dispatch, h1, h2, h3]

/-- C10 witness: a request with both a new-module name and other targets is
routed as NewModule; a request with no target performs zero generation
calls. -/
theorem claim10_witness :
    processRequest_dispatch true (some "MyModule") (some "Existing") (some "S")
      = .routed .NewModule
    ∧ processRequest_genCalls true none none none 5 7 9 = 0 :=
  ⟨(claim10_dispatch (some "MyModule") (some "Existing") (some "S")).1 (by decide),
   ((claim10_dispatch none none none).2.2.2 (by decide) (by decide) (by decide)).2 5 7 9⟩
